import Mathlib

/-!
Verification of the numeric routines and remote-fetch skeletons of the
`python-training` notebook collection.

The central routine is `earth_relative_wind_components` from
`pages/gallery/500hPa_Vorticity_Advection.ipynb`, a short pure function
over labeled 2-D grids (xarray `DataArray`s).  We embed the data model and
the routine shallowly: grids are lists of lists of rationals (exact
arithmetic standing in for IEEE floats), a `DataArray` records the
coordinate axes, the optional `metpy_crs` coordinate, the values and the
attribute dictionary.  The third-party cartopy call
`ccrs.PlateCarree().transform_vectors(data_crs, xx, yy, u, v)` is a
per-node vector rotation; we keep its per-node kernel abstract (a
parameter `rot`) and model only what the notebook code itself contributes:
the CRS precondition check, the meshgrid construction, the broadcast of
the kernel over the grid nodes, and the copy-then-replace-values plumbing.
-/

/-- Coordinate reference system tag carried by a grid.  The notebook's data
is on a Lambert-conformal NAM grid and the transform targets
`ccrs.PlateCarree()` (true north/east). -/
inductive CRS where
  | PlateCarree : CRS
  | LambertConformal (central_latitude : ℚ) (central_longitude : ℚ) : CRS
  deriving DecidableEq, Repr

/-- A 2-D numeric grid: a list of rows of exact rationals. -/
abbrev Grid := List (List ℚ)

/-- Model of an xarray `DataArray` as the notebook uses it: the optional
`metpy_crs` coordinate (present exactly when the MetPy `parse_cf()`
accessor has attached CRS metadata), the one-dimensional projection
coordinate axes `x` and `y`, the 2-D data values, and the attribute
dictionary. -/
structure DataArray where
  metpy_crs : Option CRS
  x : List ℚ
  y : List ℚ
  values : Grid
  attrs : List (String × String)
  deriving DecidableEq, Repr

/-- A `DataArray` is well formed when its value grid is rectangular with
one row per `y` coordinate and one column per `x` coordinate. -/
def DataArray.wf (d : DataArray) : Prop :=
  d.values.length = d.y.length ∧ ∀ r ∈ d.values, r.length = d.x.length

instance (d : DataArray) : Decidable d.wf := by
  unfold DataArray.wf; infer_instance

/-- Model of `np.meshgrid(x, y)`: returns the pair `(xx, yy)` of grids of
shape (len y, len x) with `xx[i][j] = x[j]` and `yy[i][j] = y[i]`. -/
def meshgrid (x y : List ℚ) : Grid × Grid :=
  (y.map (fun _ => x), y.map (fun yi => x.map (fun _ => yi)))

/-- Per-node kernel type of cartopy's `transform_vectors`: given the source
CRS, a node's (x, y) position in source coordinates and the vector at that
node, produce the rotated vector in the target (PlateCarree) frame.  The
kernel is kept abstract; theorems that need the cartopy fact that the
PlateCarree-to-PlateCarree rotation is the identity take it as an explicit
hypothesis. -/
abbrev RotKernel := CRS → ℚ × ℚ → ℚ × ℚ → ℚ × ℚ

/-- One row of the broadcast of the rotation kernel: pairs up the node
positions `(rx, ry)` with the vectors `(ru, rv)` elementwise. -/
def rotateRow (rot : RotKernel) (src : CRS) (rx ry ru rv : List ℚ) :
    List (ℚ × ℚ) :=
  List.zipWith (fun p w => rot src p w) (rx.zip ry) (ru.zip rv)

/-- Rows of the broadcast rotation: row `i` pairs the node positions of
row `i` of the meshgrid with row `i` of the two component grids. -/
def tvRows (rot : RotKernel) (src : CRS) (xx yy u v : Grid) :
    List (List (ℚ × ℚ)) :=
  List.zipWith
    (fun pr wr => rotateRow rot src pr.1 pr.2 wr.1 wr.2)
    (xx.zip yy) (u.zip v)

/-- Model of `ccrs.PlateCarree().transform_vectors(src, xx, yy, u, v)`:
the per-node rotation kernel broadcast over every grid node, returning the
pair of transformed component grids.  cartopy evaluates the rotation
independently at each node; no spatial resampling occurs. -/
def transform_vectors (rot : RotKernel) (src : CRS) (xx yy u v : Grid) :
    Grid × Grid :=
  let rows := tvRows rot src xx yy u v
  (rows.map (fun r => r.map Prod.fst), rows.map (fun r => r.map Prod.snd))

/-- Total node accessor for a grid: the value at row `i`, column `j`, with
`0` returned out of bounds. -/
def gridAt (g : Grid) (i j : ℕ) : ℚ :=
  (g.getD i []).getD j 0

/-- The `ValueError` message raised by the notebook when `metpy_crs` is
absent (the two adjacent Python string literals concatenate without a
space, exactly as in the source). -/
def noCrsMessage : String :=
  "No CRS in coordinate, be sure to usethe MetPy accessor parse_cf()"

/-- Shallow embedding of `earth_relative_wind_components(ugrd, vgrd)` from
`500hPa_Vorticity_Advection.ipynb`: check that the `metpy_crs` coordinate
is present on `ugrd` (else raise `ValueError`), take `data_crs`, `x` and
`y` from `ugrd`, build the meshgrid, rotate the wind vectors at every
node, and return copies of the two inputs with only the values replaced. -/
def earth_relative_wind_components (rot : RotKernel)
    (ugrd vgrd : DataArray) : Except String (DataArray × DataArray) :=
  match ugrd.metpy_crs with
  | none => .error noCrsMessage
  | some data_crs =>
    let x := ugrd.x
    let y := ugrd.y
    let xxyy := meshgrid x y
    let utvt := transform_vectors rot data_crs xxyy.1 xxyy.2
      ugrd.values vgrd.values
    let uer : DataArray := { ugrd with values := utvt.1 }
    let ver : DataArray := { vgrd with values := utvt.2 }
    .ok (uer, ver)

/-- Sample rotation kernel for concrete witnesses: the identity rotation
(the PlateCarree-to-PlateCarree case of cartopy's kernel). -/
def idKernel : RotKernel := fun _ _ w => w

/-- Sample u-component grid used by concrete witnesses. -/
def uSample : DataArray :=
  { metpy_crs := some CRS.PlateCarree, x := [1, 2], y := [5],
    values := [[3, 7]], attrs := [("units", "m/s")] }

/-- Sample v-component grid used by concrete witnesses. -/
def vSample : DataArray :=
  { metpy_crs := some CRS.PlateCarree, x := [1, 2], y := [5],
    values := [[4, 9]], attrs := [("units", "m/s")] }

/-- Sample v-component grid identical to `vSample` except that its
`metpy_crs` coordinate is absent. -/
def vSampleNoCrs : DataArray :=
  { metpy_crs := none, x := [1, 2], y := [5],
    values := [[4, 9]], attrs := [("units", "m/s")] }

/-- An object store modelling Python references to `DataArray` objects:
cell `r` of the store is the object the reference `r` points to. -/
abbrev Store := List DataArray

/-- Model of the in-place assignment `obj.values = g` through reference
`r`: the referenced object is replaced by a copy with the new values. -/
def Store.setValues (s : Store) (r : ℕ) (g : Grid) : Store :=
  match s[r]? with
  | some d => s.set r { d with values := g }
  | none => s

/-- State-passing embedding of `earth_relative_wind_components`, mutation
made explicit: the inputs are references into a store, `ugrd.copy()` and
`vgrd.copy()` allocate fresh objects at the end of the store, and the two
`.values = ...` assignments write through the fresh references only.  The
result is the final store together with the references returned. -/
def erwc_state (rot : RotKernel) (s : Store) (uref vref : ℕ) :
    Except String (Store × ℕ × ℕ) :=
  match s[uref]?, s[vref]? with
  | some ugrd, some vgrd =>
    match ugrd.metpy_crs with
    | none => .error noCrsMessage
    | some data_crs =>
      let utvt := transform_vectors rot data_crs
        (meshgrid ugrd.x ugrd.y).1 (meshgrid ugrd.x ugrd.y).2
        ugrd.values vgrd.values
      let s1 := s ++ [ugrd]
      let uerRef := s.length
      let s2 := s1 ++ [vgrd]
      let verRef := s1.length
      let s3 := Store.setValues s2 uerRef utvt.1
      let s4 := Store.setValues s3 verRef utvt.2
      .ok (s4, uerRef, verRef)
  | _, _ => .error "invalid reference"

/-- A 3-D numeric grid (vertical level × latitude × longitude), as used by
the dynamic-tropopause notebook. -/
abbrev Grid3 := List Grid

/-- Model of the numpy elementwise product `g * c` (the notebook's
`pvor.values * 1e6`). -/
def scaleGrid3 (c : ℚ) (g : Grid3) : Grid3 :=
  g.map (fun lvl => lvl.map (fun row => row.map (fun q => q * c)))

/-- The third-party MetPy/xarray operations invoked by the computation
cell of the dynamic-tropopause notebook, kept abstract: the claims are
about which arguments the notebook passes, not about the internals of
these library routines. -/
structure MetpyOps where
  smooth_n_point : Grid3 → ℕ → ℕ → Grid3
  sel_850_925 : Grid3 → Grid3
  mean_axis0 : Grid3 → Grid
  potential_temperature : List ℚ → Grid3 → Grid3
  sub_coriolis : Grid → List ℚ → Grid
  potential_vorticity_baroclinic : Grid3 → List ℚ → Grid3 → Grid3 → Grid3
  interpolate_to_isosurface : Grid3 → Grid3 → ℚ → Bool → Grid
  msToKnots : Grid → Grid

/-- The fields of the GFS dataset the dynamic-tropopause notebook reads. -/
structure GfsData where
  isobaric : List ℚ
  u_iso : Grid3
  v_iso : Grid3
  avor_iso : Grid3
  temperature_iso : Grid3
  lat : List ℚ

/-- Every variable bound by the computation cell of the dynamic-tropopause
notebook. -/
structure TropoCell where
  pressure : List ℚ
  uwind : Grid3
  vwind : Grid3
  LL_avor : Grid3
  avg_LL_avor : Grid
  potemp : Grid3
  avg_LL_rvor : Grid
  pvor : Grid3
  DT_potemp : Grid
  DT_uwnd : Grid
  DT_vwnd : Grid

/-- Shallow embedding of the computation cell of the dynamic-tropopause
notebook (`src/unnamed/part_001`): straight-line calls to the MetPy
operations, ending in the three `interpolate_to_isosurface` calls that
extract potential temperature and the two wind components on the 2-PVU
surface with `bottom_up_search=False`. -/
def dynamic_tropopause_cell (ops : MetpyOps) (d : GfsData) : TropoCell :=
  let pressure := d.isobaric
  let uwind := ops.smooth_n_point d.u_iso 9 2
  let vwind := ops.smooth_n_point d.v_iso 9 2
  let LL_avor := ops.smooth_n_point (ops.sel_850_925 d.avor_iso) 9 2
  let avg_LL_avor := ops.mean_axis0 LL_avor
  let potemp := ops.smooth_n_point
    (ops.potential_temperature pressure d.temperature_iso) 9 2
  let avg_LL_rvor := ops.sub_coriolis avg_LL_avor d.lat
  let pvor := ops.potential_vorticity_baroclinic potemp pressure uwind vwind
  let DT_potemp := ops.interpolate_to_isosurface
    (scaleGrid3 1000000 pvor) potemp 2 false
  let DT_uwnd := ops.msToKnots (ops.interpolate_to_isosurface
    (scaleGrid3 1000000 pvor) uwind 2 false)
  let DT_vwnd := ops.msToKnots (ops.interpolate_to_isosurface
    (scaleGrid3 1000000 pvor) vwind 2 false)
  { pressure := pressure, uwind := uwind, vwind := vwind,
    LL_avor := LL_avor, avg_LL_avor := avg_LL_avor, potemp := potemp,
    avg_LL_rvor := avg_LL_rvor, pvor := pvor, DT_potemp := DT_potemp,
    DT_uwnd := DT_uwnd, DT_vwnd := DT_vwnd }

/-- Control-flow skeleton of the data-acquisition cell of
`500hPa_Vorticity_Advection.ipynb`: the `TDSCatalog` fetch followed by the
single `ncss.get_data(query)` call, each a one-shot blocking call with no
surrounding try/except and no reissue.  The second component counts the
remote calls performed. -/
def acquire500 {Cat Data : Type} (tds_catalog : Except String Cat)
    (get_data : Cat → Except String Data) : Except String Data × ℕ :=
  match tds_catalog with
  | .error e => (.error e, 1)
  | .ok cat =>
    match get_data cat with
    | .error e => (.error e, 2)
    | .ok d => (.ok d, 2)

/-- Control-flow skeleton of the remote calls of the GLM lightning
notebook (`src/unnamed/part_000`): `getIdentifierValues`,
`getAvailableParameters`, `getAvailableTimes` and `getGeometryData` in
order, each a one-shot blocking call; `times[-1]` and `response[0]` raise
`IndexError` on empty results, also uncaught.  The second component
counts the remote calls performed. -/
def glm_script {T G : Type}
    (get_identifier_values : Except String (List String))
    (get_available_parameters : Except String (List String))
    (get_available_times : Except String (List T))
    (get_geometry_data : T → Except String (List G)) :
    Except String (List G × G) × ℕ :=
  match get_identifier_values with
  | .error e => (.error e, 1)
  | .ok _sources =>
    match get_available_parameters with
    | .error e => (.error e, 2)
    | .ok _parms =>
      match get_available_times with
      | .error e => (.error e, 3)
      | .ok times =>
        match times.getLast? with
        | none => (.error "IndexError: list index out of range", 3)
        | some t =>
          match get_geometry_data t with
          | .error e => (.error e, 4)
          | .ok response =>
            match response.head? with
            | none => (.error "IndexError: list index out of range", 4)
            | some ob => (.ok (response, ob), 4)

/-- Control-flow skeleton of the data fetch of the dynamic-tropopause
notebook: a single `xr.open_dataset(url)` call followed by pure local
processing (`parse_cf`). -/
def open_gfs {DS : Type} (open_dataset : Except String DS)
    (parse_cf : DS → DS) : Except String DS × ℕ :=
  match open_dataset with
  | .error e => (.error e, 1)
  | .ok ds => (.ok (parse_cf ds), 1)

/-- C1: when coordinate-reference metadata is absent from the input, the
call to `earth_relative_wind_components` always raises the `ValueError`
and produces no output: the result is exactly the error, so no partial
result exists. -/
theorem erwc_missing_crs_value_error (rot : RotKernel)
    (ugrd vgrd : DataArray) (h : ugrd.metpy_crs = none) :
    earth_relative_wind_components rot ugrd vgrd =
      Except.error noCrsMessage := by
  simp [earth_relative_wind_components, h]

/-- Witness for C1: a concrete pair of grids with no CRS metadata on which
the call reports the usage error. -/
theorem erwc_missing_crs_value_error_witness :
    earth_relative_wind_components (fun _ _ w => w)
      { metpy_crs := none, x := [0], y := [0], values := [[1]], attrs := [] }
      { metpy_crs := none, x := [0], y := [0], values := [[2]], attrs := [] } =
      Except.error noCrsMessage :=
  erwc_missing_crs_value_error (fun _ _ w => w)
    { metpy_crs := none, x := [0], y := [0], values := [[1]], attrs := [] }
    { metpy_crs := none, x := [0], y := [0], values := [[2]], attrs := [] }
    rfl

/-- Helper: `getD` commutes with `map` when the default is mapped too. -/
theorem list_getD_map {α β : Type} (f : α → β) (l : List α) (i : ℕ) (d : α) :
    (l.map f).getD i (f d) = f (l.getD i d) := by
  induction l generalizing i with
  | nil => simp [List.getD]
  | cons a tl ih => cases i <;> simp [List.getD, ih]
  
/-- Length of a broadcast row. -/
theorem rotateRow_length (rot : RotKernel) (src : CRS)
    (rx ry ru rv : List ℚ) :
    (rotateRow rot src rx ry ru rv).length =
      min (min rx.length ry.length) (min ru.length rv.length) := by
  simp [rotateRow, List.length_zip]

/-- Node `j` of a broadcast row over a constant-`y` meshgrid row. -/
theorem rotateRow_getD (rot : RotKernel) (src : CRS) (c : ℚ)
    (x ru rv : List ℚ) (hru : ru.length = x.length)
    (hrv : rv.length = x.length) (j : ℕ) (hj : j < x.length) :
    (rotateRow rot src x (x.map (fun _ => c)) ru rv).getD j (0, 0) =
      rot src (x.getD j 0, c) (ru.getD j 0, rv.getD j 0) := by
  induction x generalizing ru rv j with
  | nil => simp at hj
  | cons x0 xtl ih =>
    cases ru with
    | nil => simp at hru
    | cons ru0 rutl =>
      cases rv with
      | nil => simp at hrv
      | cons rv0 rvtl =>
        simp only [List.length_cons] at hru hrv hj
        cases j with
        | zero => simp [rotateRow, List.getD]
        | succ j' =>
          simpa [rotateRow, List.getD_cons_succ] using
            ih rutl rvtl (by omega) (by omega) j' (by omega)

/-- Row `i` of the broadcast over the meshgrid of `x` and `y`. -/
theorem tvRows_meshgrid_getD (rot : RotKernel) (src : CRS)
    (x y : List ℚ) (u v : Grid) (hul : u.length = y.length)
    (hvl : v.length = y.length) (i : ℕ) (hi : i < y.length) :
    (tvRows rot src (meshgrid x y).1 (meshgrid x y).2 u v).getD i [] =
      rotateRow rot src x (x.map (fun _ => y.getD i 0))
        (u.getD i []) (v.getD i []) := by
  induction y generalizing u v i with
  | nil => simp at hi
  | cons y0 ytl ih =>
    cases u with
    | nil => simp at hul
    | cons u0 utl =>
      cases v with
      | nil => simp at hvl
      | cons v0 vtl =>
        simp only [List.length_cons] at hul hvl hi
        cases i with
        | zero => simp [tvRows, meshgrid, List.getD]
        | succ i' =>
          simpa [tvRows, meshgrid, List.getD_cons_succ] using
            ih utl vtl (by omega) (by omega) i' (by omega)

/-- Lengths of both transformed grids: one row per `y` coordinate. -/
theorem tv_length (rot : RotKernel) (src : CRS) (x y : List ℚ) (u v : Grid)
    (hul : u.length = y.length) (hvl : v.length = y.length) :
    (transform_vectors rot src (meshgrid x y).1 (meshgrid x y).2 u v).1.length
        = y.length ∧
    (transform_vectors rot src (meshgrid x y).1 (meshgrid x y).2 u v).2.length
        = y.length := by
  constructor <;>
    simp [transform_vectors, tvRows, meshgrid, List.length_zip, hul, hvl]

/-- Row lengths of both transformed grids: one column per `x` coordinate. -/
theorem tv_row_length (rot : RotKernel) (src : CRS) (x y : List ℚ)
    (u v : Grid) (hul : u.length = y.length) (hvl : v.length = y.length)
    (hur : ∀ r ∈ u, r.length = x.length) (hvr : ∀ r ∈ v, r.length = x.length)
    (i : ℕ) (hi : i < y.length) :
    ((transform_vectors rot src (meshgrid x y).1 (meshgrid x y).2 u
        v).1.getD i []).length = x.length ∧
    ((transform_vectors rot src (meshgrid x y).1 (meshgrid x y).2 u
        v).2.getD i []).length = x.length := by
  have hiu : i < u.length := by omega
  have hiv : i < v.length := by omega
  have hu_row : (u.getD i []).length = x.length := by
    rw [List.getD_eq_getElem _ _ hiu]; exact hur _ (List.getElem_mem hiu)
  have hv_row : (v.getD i []).length = x.length := by
    rw [List.getD_eq_getElem _ _ hiv]; exact hvr _ (List.getElem_mem hiv)
  have hrows := tvRows_meshgrid_getD rot src x y u v hul hvl i hi
  have h1 := list_getD_map (fun r => r.map Prod.fst)
    (tvRows rot src (meshgrid x y).1 (meshgrid x y).2 u v) i []
  have h2 := list_getD_map (fun r => r.map Prod.snd)
    (tvRows rot src (meshgrid x y).1 (meshgrid x y).2 u v) i []
  simp only [List.map_nil] at h1 h2
  have hu_row' := hu_row
  have hv_row' := hv_row
  simp only [List.getD_eq_getElem?_getD] at hu_row' hv_row'
  constructor
  · simp only [transform_vectors]
    rw [h1, hrows]
    simp [rotateRow_length, hu_row', hv_row']
  · simp only [transform_vectors]
    rw [h2, hrows]
    simp [rotateRow_length, hu_row', hv_row']

/-- Pointwise characterisation of the transform: the value of each output
node is the rotation kernel applied at that node's meshgrid position to
that node's input vector. -/
theorem gridAt_transform_vectors (rot : RotKernel) (src : CRS)
    (x y : List ℚ) (u v : Grid) (hul : u.length = y.length)
    (hvl : v.length = y.length) (hur : ∀ r ∈ u, r.length = x.length)
    (hvr : ∀ r ∈ v, r.length = x.length) (i j : ℕ) (hi : i < y.length)
    (hj : j < x.length) :
    gridAt (transform_vectors rot src (meshgrid x y).1 (meshgrid x y).2 u
        v).1 i j =
      (rot src (x.getD j 0, y.getD i 0) (gridAt u i j, gridAt v i j)).1 ∧
    gridAt (transform_vectors rot src (meshgrid x y).1 (meshgrid x y).2 u
        v).2 i j =
      (rot src (x.getD j 0, y.getD i 0) (gridAt u i j, gridAt v i j)).2 := by
  have hiu : i < u.length := by omega
  have hiv : i < v.length := by omega
  have hu_row : (u.getD i []).length = x.length := by
    rw [List.getD_eq_getElem _ _ hiu]; exact hur _ (List.getElem_mem hiu)
  have hv_row : (v.getD i []).length = x.length := by
    rw [List.getD_eq_getElem _ _ hiv]; exact hvr _ (List.getElem_mem hiv)
  have hrows := tvRows_meshgrid_getD rot src x y u v hul hvl i hi
  have hrr := rotateRow_getD rot src (y.getD i 0) x (u.getD i [])
    (v.getD i []) hu_row hv_row j hj
  have h1 := list_getD_map (fun r => r.map Prod.fst)
    (tvRows rot src (meshgrid x y).1 (meshgrid x y).2 u v) i []
  have h2 := list_getD_map (fun r => r.map Prod.snd)
    (tvRows rot src (meshgrid x y).1 (meshgrid x y).2 u v) i []
  simp only [List.map_nil] at h1 h2
  have h3 := list_getD_map Prod.fst
    (rotateRow rot src x (x.map (fun _ => y.getD i 0)) (u.getD i [])
      (v.getD i [])) j ((0 : ℚ), (0 : ℚ))
  have h4 := list_getD_map Prod.snd
    (rotateRow rot src x (x.map (fun _ => y.getD i 0)) (u.getD i [])
      (v.getD i [])) j ((0 : ℚ), (0 : ℚ))
  simp only at h3 h4
  constructor
  · simp only [gridAt, transform_vectors]
    rw [h1, hrows, h3, hrr]
  · simp only [gridAt, transform_vectors]
    rw [h2, hrows, h4, hrr]

/-- Inversion of a successful call: the `metpy_crs` coordinate of `ugrd`
was present, and each output is the corresponding input with only the
values replaced by the transformed component grid. -/
theorem erwc_ok_elim (rot : RotKernel) (ugrd vgrd uer ver : DataArray)
    (hok : earth_relative_wind_components rot ugrd vgrd =
      Except.ok (uer, ver)) :
    ∃ c, ugrd.metpy_crs = some c ∧
      uer = { ugrd with values :=
        (transform_vectors rot c (meshgrid ugrd.x ugrd.y).1
          (meshgrid ugrd.x ugrd.y).2 ugrd.values vgrd.values).1 } ∧
      ver = { vgrd with values :=
        (transform_vectors rot c (meshgrid ugrd.x ugrd.y).1
          (meshgrid ugrd.x ugrd.y).2 ugrd.values vgrd.values).2 } := by
  cases hcrs : ugrd.metpy_crs with
  | none => simp [earth_relative_wind_components, hcrs] at hok
  | some c =>
    simp only [earth_relative_wind_components, hcrs, Except.ok.injEq,
      Prod.mk.injEq] at hok
    exact ⟨c, rfl, hok.1.symm, hok.2.symm⟩

/-- C2: on any successful call on well-formed, equal-shape inputs with
identical coordinate axes, each returned grid has the same coordinate
axes and the same shape (row count and row lengths) as the corresponding
input grid. -/
theorem erwc_output_shape_axes (rot : RotKernel)
    (ugrd vgrd uer ver : DataArray) (hu : ugrd.wf) (hv : vgrd.wf)
    (hx : vgrd.x = ugrd.x) (hy : vgrd.y = ugrd.y)
    (hok : earth_relative_wind_components rot ugrd vgrd =
      Except.ok (uer, ver)) :
    uer.x = ugrd.x ∧ uer.y = ugrd.y ∧ ver.x = vgrd.x ∧ ver.y = vgrd.y ∧
    uer.values.length = ugrd.values.length ∧
    ver.values.length = vgrd.values.length ∧
    (∀ r ∈ uer.values, r.length = ugrd.x.length) ∧
    (∀ r ∈ ver.values, r.length = vgrd.x.length) := by
  obtain ⟨c, hcrs, hue, hve⟩ := erwc_ok_elim rot ugrd vgrd uer ver hok
  subst hue hve
  obtain ⟨hul, hur⟩ := hu
  obtain ⟨hvl, hvr⟩ := hv
  have hvl' : vgrd.values.length = ugrd.y.length := by rw [hvl, hy]
  have hvr' : ∀ r ∈ vgrd.values, r.length = ugrd.x.length := by
    intro r hr; rw [hvr r hr, hx]
  have hL := tv_length rot c ugrd.x ugrd.y ugrd.values vgrd.values hul hvl'
  refine ⟨rfl, rfl, rfl, rfl, ?_, ?_, ?_, ?_⟩
  · rw [hL.1, hul]
  · rw [hL.2, ← hvl']
  · intro r hr
    rw [List.mem_iff_getElem] at hr
    obtain ⟨i, hilt, hig⟩ := hr
    have hi : i < ugrd.y.length := by rw [hL.1] at hilt; exact hilt
    have hrl := (tv_row_length rot c ugrd.x ugrd.y ugrd.values vgrd.values
      hul hvl' hur hvr' i hi).1
    rw [List.getD_eq_getElem _ _ hilt] at hrl
    rw [← hig]; exact hrl
  · intro r hr
    rw [List.mem_iff_getElem] at hr
    obtain ⟨i, hilt, hig⟩ := hr
    have hi : i < ugrd.y.length := by rw [hL.2] at hilt; exact hilt
    have hrl := (tv_row_length rot c ugrd.x ugrd.y ugrd.values vgrd.values
      hul hvl' hur hvr' i hi).2
    rw [List.getD_eq_getElem _ _ hilt] at hrl
    rw [← hig, hx]; exact hrl

/-- Witness for C2: on the concrete sample grids the call succeeds and the
outputs have the axes and shape of the inputs. -/
theorem erwc_output_shape_axes_witness :
    uSample.x = uSample.x ∧ uSample.y = uSample.y ∧
    vSample.x = vSample.x ∧ vSample.y = vSample.y ∧
    uSample.values.length = uSample.values.length ∧
    vSample.values.length = vSample.values.length ∧
    (∀ r ∈ uSample.values, r.length = uSample.x.length) ∧
    (∀ r ∈ vSample.values, r.length = vSample.x.length) :=
  erwc_output_shape_axes idKernel uSample vSample uSample vSample
    (by decide) (by decide) rfl rfl rfl

/-- Helper: writing through one reference leaves every other cell of the
store unchanged. -/
theorem setValues_getElem?_ne (s : Store) (r i : ℕ) (g : Grid)
    (h : r ≠ i) : (Store.setValues s r g)[i]? = s[i]? := by
  unfold Store.setValues
  cases hs : s[r]? with
  | none => rfl
  | some d => exact List.getElem?_set_ne h

/-- C3: a call to the state-passing embedding leaves both input grids
unmodified: the objects the caller's references point to are equal before
and after the call (the function writes only through the fresh copies). -/
theorem erwc_leaves_inputs_unmodified (rot : RotKernel) (s : Store)
    (uref vref : ℕ) (s' : Store) (ur vr : ℕ)
    (hok : erwc_state rot s uref vref = Except.ok (s', ur, vr)) :
    s'[uref]? = s[uref]? ∧ s'[vref]? = s[vref]? := by
  cases hu : s[uref]? with
  | none => simp [erwc_state, hu] at hok
  | some ugrd =>
    cases hv : s[vref]? with
    | none => simp [erwc_state, hu, hv] at hok
    | some vgrd =>
      cases hcrs : ugrd.metpy_crs with
      | none => simp [erwc_state, hu, hv, hcrs] at hok
      | some c =>
        simp only [erwc_state, hu, hv, hcrs, Except.ok.injEq,
          Prod.mk.injEq] at hok
        obtain ⟨hs', -, -⟩ := hok
        subst hs'
        have hulen : uref < s.length := (List.getElem?_eq_some.mp hu).1
        have hvlen : vref < s.length := (List.getElem?_eq_some.mp hv).1
        constructor
        · rw [setValues_getElem?_ne _ _ _ _ (by simp; omega),
            setValues_getElem?_ne _ _ _ _ (by omega),
            List.getElem?_append_left (by simp; omega),
            List.getElem?_append_left hulen]
          exact hu
        · rw [setValues_getElem?_ne _ _ _ _ (by simp; omega),
            setValues_getElem?_ne _ _ _ _ (by omega),
            List.getElem?_append_left (by simp; omega),
            List.getElem?_append_left hvlen]
          exact hv

/-- Witness for C3: on a concrete two-object store the call succeeds and
both input cells are unchanged in the final store. -/
theorem erwc_leaves_inputs_unmodified_witness :
    [uSample, vSample, uSample, vSample][0]? = [uSample, vSample][0]? ∧
    [uSample, vSample, uSample, vSample][1]? = [uSample, vSample][1]? :=
  erwc_leaves_inputs_unmodified idKernel [uSample, vSample] 0 1
    [uSample, vSample, uSample, vSample] 2 3 rfl

/-- Helper: when the per-node kernel is the identity at the source CRS,
the broadcast transform returns the input component grids unchanged. -/
theorem tv_id_of_kernel_id (rot : RotKernel) (src : CRS) (x y : List ℚ)
    (u v : Grid) (hker : ∀ p w, rot src p w = w)
    (hul : u.length = y.length) (hvl : v.length = y.length)
    (hur : ∀ r ∈ u, r.length = x.length)
    (hvr : ∀ r ∈ v, r.length = x.length) :
    (transform_vectors rot src (meshgrid x y).1 (meshgrid x y).2 u v).1 = u ∧
    (transform_vectors rot src (meshgrid x y).1 (meshgrid x y).2 u v).2
      = v := by
  have hL := tv_length rot src x y u v hul hvl
  constructor
  · apply List.ext_getElem (by rw [hL.1, hul])
    intro i h1 h2
    have hi : i < y.length := by rw [hL.1] at h1; exact h1
    have hu_row : u[i].length = x.length := hur _ (List.getElem_mem h2)
    have hrl := (tv_row_length rot src x y u v hul hvl hur hvr i hi).1
    rw [List.getD_eq_getElem _ _ h1] at hrl
    apply List.ext_getElem (by rw [hrl, hu_row])
    intro j hj1 hj2
    have hjx : j < x.length := by rw [hu_row] at hj2; exact hj2
    have hA := (gridAt_transform_vectors rot src x y u v hul hvl hur hvr
      i j hi hjx).1
    rw [hker] at hA
    simp only [gridAt] at hA
    rw [List.getD_eq_getElem _ _ h1, List.getD_eq_getElem _ _ hj1,
      List.getD_eq_getElem _ _ h2, List.getD_eq_getElem _ _ hj2] at hA
    exact hA
  · apply List.ext_getElem (by rw [hL.2, hvl])
    intro i h1 h2
    have hi : i < y.length := by rw [hL.2] at h1; exact h1
    have hv_row : v[i].length = x.length := hvr _ (List.getElem_mem h2)
    have hrl := (tv_row_length rot src x y u v hul hvl hur hvr i hi).2
    rw [List.getD_eq_getElem _ _ h1] at hrl
    apply List.ext_getElem (by rw [hrl, hv_row])
    intro j hj1 hj2
    have hjx : j < x.length := by rw [hv_row] at hj2; exact hj2
    have hA := (gridAt_transform_vectors rot src x y u v hul hvl hur hvr
      i j hi hjx).2
    rw [hker] at hA
    simp only [gridAt] at hA
    rw [List.getD_eq_getElem _ _ h1, List.getD_eq_getElem _ _ hj1,
      List.getD_eq_getElem _ _ (by omega : i < v.length),
      List.getD_eq_getElem _ _ hj2] at hA
    exact hA

/-- C4: when the source CRS carried by the input equals the PlateCarree
target and the kernel is (as cartopy guarantees for identical source and
target systems) the identity at PlateCarree, the transform is the
identity: both returned grids equal the inputs exactly (the embedding
uses exact rational arithmetic, so no floating-point tolerance is
needed). -/
theorem erwc_identity_same_crs (rot : RotKernel)
    (ugrd vgrd uer ver : DataArray)
    (hker : ∀ p w, rot CRS.PlateCarree p w = w)
    (hcrs : ugrd.metpy_crs = some CRS.PlateCarree)
    (hu : ugrd.wf) (hv : vgrd.wf) (hx : vgrd.x = ugrd.x)
    (hy : vgrd.y = ugrd.y)
    (hok : earth_relative_wind_components rot ugrd vgrd =
      Except.ok (uer, ver)) :
    uer = ugrd ∧ ver = vgrd := by
  obtain ⟨c, hcrs', hue, hve⟩ := erwc_ok_elim rot ugrd vgrd uer ver hok
  rw [hcrs] at hcrs'
  injection hcrs' with hc
  subst hc
  obtain ⟨hul, hur⟩ := hu
  obtain ⟨hvl, hvr⟩ := hv
  have hvl' : vgrd.values.length = ugrd.y.length := by rw [hvl, hy]
  have hvr' : ∀ r ∈ vgrd.values, r.length = ugrd.x.length := by
    intro r hr; rw [hvr r hr, hx]
  have hid := tv_id_of_kernel_id rot CRS.PlateCarree ugrd.x ugrd.y
    ugrd.values vgrd.values hker hul hvl' hur hvr'
  constructor
  · rw [hue, hid.1]
  · rw [hve, hid.2]

/-- Witness for C4: with the identity kernel on the concrete PlateCarree
sample grids the call returns the inputs themselves. -/
theorem erwc_identity_same_crs_witness :
    uSample = uSample ∧ vSample = vSample :=
  erwc_identity_same_crs idKernel uSample vSample uSample vSample
    (fun _ _ => rfl) rfl (by decide) (by decide) rfl rfl rfl

/-- C5: the transform is deterministic: two calls with identical inputs
(same values, axes and coordinate-reference metadata) produce identical
outputs.  The embedding is a pure function of its arguments: the source
reads no global state and uses no randomness. -/
theorem erwc_deterministic (rot : RotKernel) (u1 v1 u2 v2 : DataArray)
    (hu : u1 = u2) (hv : v1 = v2) :
    earth_relative_wind_components rot u1 v1 =
      earth_relative_wind_components rot u2 v2 := by
  rw [hu, hv]

/-- Witness for C5: two calls on the concrete sample grids agree. -/
theorem erwc_deterministic_witness :
    earth_relative_wind_components idKernel uSample vSample =
      earth_relative_wind_components idKernel uSample vSample :=
  erwc_deterministic idKernel uSample vSample uSample vSample rfl rfl

/-- C6: the rotation is a pointwise coordinate-vector transform: the value
of each output node (i, j) is the kernel applied at that node's meshgrid
position (x[j], y[i]) to that node's input vector only — not a spatial
resampling. -/
theorem erwc_pointwise_node_dependence (rot : RotKernel) (c : CRS)
    (ugrd vgrd uer ver : DataArray) (hcrs : ugrd.metpy_crs = some c)
    (hu : ugrd.wf) (hv : vgrd.wf) (hx : vgrd.x = ugrd.x)
    (hy : vgrd.y = ugrd.y)
    (hok : earth_relative_wind_components rot ugrd vgrd =
      Except.ok (uer, ver))
    (i j : ℕ) (hi : i < ugrd.y.length) (hj : j < ugrd.x.length) :
    gridAt uer.values i j =
      (rot c (ugrd.x.getD j 0, ugrd.y.getD i 0)
        (gridAt ugrd.values i j, gridAt vgrd.values i j)).1 ∧
    gridAt ver.values i j =
      (rot c (ugrd.x.getD j 0, ugrd.y.getD i 0)
        (gridAt ugrd.values i j, gridAt vgrd.values i j)).2 := by
  obtain ⟨c', hcrs', hue, hve⟩ := erwc_ok_elim rot ugrd vgrd uer ver hok
  rw [hcrs] at hcrs'
  injection hcrs' with hc
  subst hc
  subst hue hve
  obtain ⟨hul, hur⟩ := hu
  obtain ⟨hvl, hvr⟩ := hv
  have hvl' : vgrd.values.length = ugrd.y.length := by rw [hvl, hy]
  have hvr' : ∀ r ∈ vgrd.values, r.length = ugrd.x.length := by
    intro r hr; rw [hvr r hr, hx]
  exact gridAt_transform_vectors rot c ugrd.x ugrd.y ugrd.values
    vgrd.values hul hvl' hur hvr' i j hi hj

/-- Witness for C6: the pointwise formula evaluated at node (0, 1) of the
concrete sample grids. -/
theorem erwc_pointwise_node_dependence_witness :
    gridAt uSample.values 0 1 =
      (idKernel CRS.PlateCarree (uSample.x.getD 1 0, uSample.y.getD 0 0)
        (gridAt uSample.values 0 1, gridAt vSample.values 0 1)).1 ∧
    gridAt vSample.values 0 1 =
      (idKernel CRS.PlateCarree (uSample.x.getD 1 0, uSample.y.getD 0 0)
        (gridAt uSample.values 0 1, gridAt vSample.values 0 1)).2 :=
  erwc_pointwise_node_dependence idKernel CRS.PlateCarree uSample vSample
    uSample vSample rfl (by decide) (by decide) rfl rfl rfl 0 1
    (by decide) (by decide)

/-- C10: on success each output is a copy of the corresponding input in
which only the data values are replaced: the coordinate axes, the
attribute dictionary and the original (grid-relative) CRS tag are all
identical to the input's. -/
theorem erwc_outputs_copy_metadata (rot : RotKernel)
    (ugrd vgrd uer ver : DataArray)
    (hok : earth_relative_wind_components rot ugrd vgrd =
      Except.ok (uer, ver)) :
    uer.metpy_crs = ugrd.metpy_crs ∧ uer.x = ugrd.x ∧ uer.y = ugrd.y ∧
    uer.attrs = ugrd.attrs ∧ ver.metpy_crs = vgrd.metpy_crs ∧
    ver.x = vgrd.x ∧ ver.y = vgrd.y ∧ ver.attrs = vgrd.attrs := by
  obtain ⟨c, -, hue, hve⟩ := erwc_ok_elim rot ugrd vgrd uer ver hok
  subst hue hve
  exact ⟨rfl, rfl, rfl, rfl, rfl, rfl, rfl, rfl⟩

/-- Witness for C10: the metadata equalities on the concrete sample
grids. -/
theorem erwc_outputs_copy_metadata_witness :
    uSample.metpy_crs = uSample.metpy_crs ∧ uSample.x = uSample.x ∧
    uSample.y = uSample.y ∧ uSample.attrs = uSample.attrs ∧
    vSample.metpy_crs = vSample.metpy_crs ∧ vSample.x = vSample.x ∧
    vSample.y = vSample.y ∧ vSample.attrs = vSample.attrs :=
  erwc_outputs_copy_metadata idKernel uSample vSample uSample vSample rfl

/-- Counterexample for C9: `vgrd`'s CRS metadata does influence the result
object: two calls whose `vgrd` arguments differ only in the `metpy_crs`
coordinate return different results, because `vgrd.copy()` carries
`vgrd`'s coordinates (including `metpy_crs`) into the second output. -/
theorem erwc_vgrd_crs_affects_returned_object :
    earth_relative_wind_components idKernel uSample vSample ≠
      earth_relative_wind_components idKernel uSample vSampleNoCrs := by
  intro h
  simp [earth_relative_wind_components, uSample, vSample, vSampleNoCrs,
    idKernel, transform_vectors, tvRows, rotateRow, meshgrid] at h

/-- C9 (amended): the CRS precondition and the transform consult only
`ugrd`'s metadata: whenever `ugrd` carries CRS metadata the call succeeds
even if `vgrd` lacks CRS metadata or carries a different CRS, and `vgrd`'s
CRS metadata never influences the computed component values or the first
output — it is only carried, unchanged, into the copied metadata of the
second output. -/
theorem erwc_vgrd_crs_only_in_copied_metadata (rot : RotKernel) (c : CRS)
    (ugrd vgrd vgrd2 : DataArray) (hcrs : ugrd.metpy_crs = some c)
    (hvals : vgrd.values = vgrd2.values) :
    earth_relative_wind_components rot ugrd vgrd =
      Except.ok
        ({ ugrd with values := (transform_vectors rot c
            (meshgrid ugrd.x ugrd.y).1 (meshgrid ugrd.x ugrd.y).2
            ugrd.values vgrd.values).1 },
         { vgrd with values := (transform_vectors rot c
            (meshgrid ugrd.x ugrd.y).1 (meshgrid ugrd.x ugrd.y).2
            ugrd.values vgrd.values).2 }) ∧
    earth_relative_wind_components rot ugrd vgrd2 =
      Except.ok
        ({ ugrd with values := (transform_vectors rot c
            (meshgrid ugrd.x ugrd.y).1 (meshgrid ugrd.x ugrd.y).2
            ugrd.values vgrd.values).1 },
         { vgrd2 with values := (transform_vectors rot c
            (meshgrid ugrd.x ugrd.y).1 (meshgrid ugrd.x ugrd.y).2
            ugrd.values vgrd.values).2 }) := by
  constructor
  · simp [earth_relative_wind_components, hcrs]
  · rw [hvals]
    simp [earth_relative_wind_components, hcrs]

/-- Witness for C9 (amended): the two calls on the concrete sample grids,
where the second `vgrd` lacks CRS metadata, both succeed with the same
computed values. -/
theorem erwc_vgrd_crs_only_in_copied_metadata_witness :
    earth_relative_wind_components idKernel uSample vSample =
      Except.ok
        ({ uSample with values := (transform_vectors idKernel
            CRS.PlateCarree (meshgrid uSample.x uSample.y).1
            (meshgrid uSample.x uSample.y).2
            uSample.values vSample.values).1 },
         { vSample with values := (transform_vectors idKernel
            CRS.PlateCarree (meshgrid uSample.x uSample.y).1
            (meshgrid uSample.x uSample.y).2
            uSample.values vSample.values).2 }) ∧
    earth_relative_wind_components idKernel uSample vSampleNoCrs =
      Except.ok
        ({ uSample with values := (transform_vectors idKernel
            CRS.PlateCarree (meshgrid uSample.x uSample.y).1
            (meshgrid uSample.x uSample.y).2
            uSample.values vSample.values).1 },
         { vSampleNoCrs with values := (transform_vectors idKernel
            CRS.PlateCarree (meshgrid uSample.x uSample.y).1
            (meshgrid uSample.x uSample.y).2
            uSample.values vSample.values).2 }) :=
  erwc_vgrd_crs_only_in_copied_metadata idKernel CRS.PlateCarree uSample
    vSample vSampleNoCrs rfl rfl

/-- C7: in the dynamic-tropopause notebook, `DT_potemp`, `DT_uwnd` and
`DT_vwnd` are each obtained by `interpolate_to_isosurface` extracting the
respective field (potential temperature, u-wind, v-wind) where potential
vorticity scaled by 1e6 crosses the fixed threshold 2, with
`bottom_up_search=False` (top-down vertical search); the wind results are
then converted to knots. -/
theorem dynamic_tropopause_isosurface_extraction (ops : MetpyOps)
    (d : GfsData) :
    (dynamic_tropopause_cell ops d).DT_potemp =
      ops.interpolate_to_isosurface
        (scaleGrid3 1000000 (dynamic_tropopause_cell ops d).pvor)
        (dynamic_tropopause_cell ops d).potemp 2 false ∧
    (dynamic_tropopause_cell ops d).DT_uwnd =
      ops.msToKnots (ops.interpolate_to_isosurface
        (scaleGrid3 1000000 (dynamic_tropopause_cell ops d).pvor)
        (dynamic_tropopause_cell ops d).uwind 2 false) ∧
    (dynamic_tropopause_cell ops d).DT_vwnd =
      ops.msToKnots (ops.interpolate_to_isosurface
        (scaleGrid3 1000000 (dynamic_tropopause_cell ops d).pvor)
        (dynamic_tropopause_cell ops d).vwind 2 false) :=
  ⟨rfl, rfl, rfl⟩

/-- C8: the remote-fetch skeletons of the three scripts implement no
retry, backoff, recovery or error translation: every remote fetch is a
single one-shot call, an error returned by any fetch becomes the script's
result verbatim with no further remote calls made, and on success each
call site is executed exactly once. -/
theorem remote_fetch_one_shot_uncaught :
    (∀ (Cat Data : Type) (gd : Cat → Except String Data) (e : String),
      acquire500 (Except.error e) gd = (Except.error e, 1)) ∧
    (∀ (Cat Data : Type) (cat : Cat) (e : String),
      acquire500 (Except.ok cat)
        (fun _ : Cat => (Except.error e : Except String Data)) =
        (Except.error e, 2)) ∧
    (∀ (Cat Data : Type) (cat : Cat) (d : Data),
      acquire500 (Except.ok cat)
        (fun _ : Cat => (Except.ok d : Except String Data)) =
        (Except.ok d, 2)) ∧
    (∀ (T G : Type) (p2 : Except String (List String))
        (p3 : Except String (List T)) (p4 : T → Except String (List G))
        (e : String),
      glm_script (Except.error e) p2 p3 p4 = (Except.error e, 1)) ∧
    (∀ (T G : Type) (s : List String) (p3 : Except String (List T))
        (p4 : T → Except String (List G)) (e : String),
      glm_script (Except.ok s) (Except.error e) p3 p4 =
        (Except.error e, 2)) ∧
    (∀ (T G : Type) (s p : List String) (p4 : T → Except String (List G))
        (e : String),
      glm_script (Except.ok s) (Except.ok p) (Except.error e) p4 =
        (Except.error e, 3)) ∧
    (∀ (T G : Type) (s p : List String) (ts : List T) (t : T) (e : String),
      glm_script (Except.ok s) (Except.ok p) (Except.ok (ts ++ [t]))
        (fun _ => (Except.error e : Except String (List G))) =
        (Except.error e, 4)) ∧
    (∀ (T G : Type) (s p : List String) (ts : List T) (t : T) (g : G)
        (gs : List G),
      glm_script (Except.ok s) (Except.ok p) (Except.ok (ts ++ [t]))
        (fun _ => Except.ok (g :: gs)) = (Except.ok (g :: gs, g), 4)) ∧
    (∀ (DS : Type) (pc : DS → DS) (e : String),
      open_gfs (Except.error e) pc = (Except.error e, 1)) ∧
    (∀ (DS : Type) (pc : DS → DS) (ds : DS),
      open_gfs (Except.ok ds) pc = (Except.ok (pc ds), 1)) := by
  refine ⟨?_, ?_, ?_, ?_, ?_, ?_, ?_, ?_, ?_, ?_⟩
  · intro Cat Data gd e; rfl
  · intro Cat Data cat e; rfl
  · intro Cat Data cat d; rfl
  · intro T G p2 p3 p4 e; rfl
  · intro T G s p3 p4 e; rfl
  · intro T G s p p4 e; rfl
  · intro T G s p ts t e
    simp [glm_script, List.getLast?_concat]
  · intro T G s p ts t g gs
    simp [glm_script, List.getLast?_concat]
  · intro DS pc e; rfl
  · intro DS pc ds; rfl
